import Mathlib

/-!
Shallow embedding of the EmpowerHub scoring and aggregation core
(`app.py`).  Text is modelled as `List Char` (a Python `str` is a
sequence of code points), Python floats as exact rationals `ℚ`, Python
ints as `ℤ`/`ℕ`.  Python's substring test `w in t` is contiguous-infix
containment, `List.IsInfix`.
-/

namespace EmpowerHub

/-- Positive keyword list of `analyze_sentiment`. -/
def positive_words : List (List Char) :=
  ["happy".toList, "good".toList, "great".toList, "excited".toList, "joy".toList,
   "love".toList, "nice".toList, "positive".toList, "awesome".toList, "fantastic".toList]

/-- Negative keyword list of `analyze_sentiment`. -/
def negative_words : List (List Char) :=
  ["sad".toList, "bad".toList, "angry".toList, "hate".toList, "upset".toList,
   "stress".toList, "anxious".toList, "depress".toList, "tired".toList, "worried".toList]

/-- Number of keywords from `words` occurring as substrings of `t`
(Python `sum(1 for word in words if word in t)`). -/
def count_hits (words : List (List Char)) (t : List Char) : ℕ :=
  words.countP (fun w => decide (List.IsInfix w t))

/-- Embedding of `analyze_sentiment`: case-fold, count keyword hits,
compare.  Returns the sentiment label and the confidence. -/
def analyze_sentiment (text : List Char) : String × ℚ :=
  let text_lower := text.map Char.toLower
  let positive_count := count_hits positive_words text_lower
  let negative_count := count_hits negative_words text_lower
  if positive_count > negative_count then ("POSITIVE", 7/10)
  else if negative_count > positive_count then ("NEGATIVE", 7/10)
  else ("NEUTRAL", 6/10)

/-- Embedding of the dictionary `base_scores` with default 60
(`base_scores.get(sentiment, 60)` in `calculate_mood_score`). -/
def base_scores (sentiment : String) : ℚ :=
  if sentiment = "POSITIVE" then 85
  else if sentiment = "NEUTRAL" then 60
  else if sentiment = "NEGATIVE" then 35
  else 60

/-- Embedding of `calculate_mood_score`. -/
def calculate_mood_score (sentiment : String) (confidence : ℚ) : ℚ :=
  let confidence_adjustment := (confidence - 1/2) * 20
  max 10 (min 100 (base_scores sentiment + confidence_adjustment))

/-- Python's `round` (round-half-to-even) on an exact rational. -/
def pyRound (q : ℚ) : ℤ :=
  let f := Rat.floor q
  let r := q - f
  if r < 1/2 then f
  else if 1/2 < r then f + 1
  else if f % 2 = 0 then f else f + 1

/-- The four scores computed by the `track_wellness` route. -/
structure WellnessScores where
  sleep_score : ℚ
  exercise_score : ℚ
  water_score : ℚ
  overall_score : ℤ
deriving DecidableEq, Repr

/-- Embedding of the score block of `track_wellness`. -/
def track_wellness_scores (sleep_hours exercise_minutes water_glasses : ℚ) :
    WellnessScores :=
  let sleep_score := min (sleep_hours / 8 * 100) 100
  let exercise_score := min (exercise_minutes / 30 * 100) 100
  let water_score := min (water_glasses / 8 * 100) 100
  let wellness_score := pyRound ((sleep_score + exercise_score + water_score) / 3)
  ⟨sleep_score, exercise_score, water_score, wellness_score⟩

/-- Healthy-ingredient keyword list of `calculate_nutrition_score`. -/
def healthy_ingredients : List (List Char) :=
  ["vegetables".toList, "fruits".toList, "whole grains".toList,
   "lean protein".toList, "legumes".toList]

/-- Embedding of `calculate_nutrition_score`.  The
`dietary_restrictions` argument is accepted but unused, as in the
source. -/
def calculate_nutrition_score (ingredients : List (List Char))
    (dietary_restrictions : String) : ℕ :=
  let base_score := min (ingredients.length * 10) 100
  let bonus := 5 * ingredients.countP
    (fun ingredient => healthy_ingredients.any
      (fun healthy => decide (List.IsInfix healthy (ingredient.map Char.toLower))))
  min 100 (base_score + bonus)

/-- Embedding of `estimate_meal_cost` (KES per ingredient). -/
def estimate_meal_cost (ingredients : List (List Char)) : ℕ :=
  ingredients.length * 50

/-- Embedding of `calculate_waste_impact_score`. -/
def calculate_waste_impact_score (items : List (List Char)) : ℕ :=
  min 100 (items.length * 15)

/-- The POSITIVE entry of the recommendation table in
`generate_mental_health_recommendations`. -/
def positive_recs : List String :=
  ["Keep up the positive mindset with regular exercise and social connections",
   "Practice gratitude and maintain your current healthy habits",
   "Consider sharing your positivity with others who might need support"]

/-- The NEGATIVE entry of the recommendation table. -/
def negative_recs : List String :=
  ["Consider talking to a trusted friend, family member, or mental health professional",
   "Try relaxation techniques like deep breathing or meditation",
   "Engage in physical activity, even a short walk can help improve mood",
   "Ensure you\x27re getting adequate sleep and nutrition"]

/-- The NEUTRAL entry of the recommendation table. -/
def neutral_recs : List String :=
  ["Engage in activities that bring you joy and fulfillment",
   "Connect with friends and family for social support",
   "Try mindfulness or meditation practices",
   "Consider exploring new hobbies or interests"]

/-- The dictionary lookup `recommendations.get(sentiment, ...)` as an
optional result. -/
def mh_lookup (sentiment : String) : Option (List String) :=
  if sentiment = "POSITIVE" then some positive_recs
  else if sentiment = "NEGATIVE" then some negative_recs
  else if sentiment = "NEUTRAL" then some neutral_recs
  else none

/-- Embedding of `generate_mental_health_recommendations`; the
`confidence` argument is accepted but unused, as in the source. -/
def generate_mental_health_recommendations (sentiment : String) (confidence : ℚ) :
    List String :=
  (mh_lookup sentiment).getD neutral_recs

/-- Sleep tip of `generate_wellness_recommendations`. -/
def sleep_tip : String := "Aim for 7-9 hours of quality sleep each night"

/-- Exercise tip of `generate_wellness_recommendations`. -/
def exercise_tip : String := "Try to get at least 30 minutes of physical activity daily"

/-- Hydration tip of `generate_wellness_recommendations`. -/
def water_tip : String := "Increase water intake to 8 glasses per day"

/-- The closing remark appended by the final if/elif/else of
`generate_wellness_recommendations`. -/
def closing_remark (wellness_score : ℤ) : String :=
  if wellness_score ≥ 80 then "Great job maintaining excellent wellness habits!"
  else if wellness_score ≥ 60 then
    "You\x27re on the right track - small improvements can make a big difference"
  else "Focus on gradual improvements in sleep, exercise, and hydration"

/-- Embedding of `generate_wellness_recommendations`: the three
conditional tips in order, then the closing remark. -/
def generate_wellness_recommendations (wellness_score : ℤ)
    (sleep_score exercise_score water_score : ℚ) : List String :=
  (if sleep_score < 70 then [sleep_tip] else []) ++
  (if exercise_score < 70 then [exercise_tip] else []) ++
  (if water_score < 70 then [water_tip] else []) ++
  [closing_remark wellness_score]

/-- Embedding of `determine_education_level`.  The activity count is a
record count, hence a natural number; `avg_progress` is accepted but
unused, as in the source. -/
def determine_education_level (activity_count : ℕ) (avg_progress : ℚ) : String :=
  if activity_count = 0 then "Beginner"
  else if activity_count < 5 then "Explorer"
  else if activity_count < 10 then "Learner"
  else if activity_count < 20 then "Scholar"
  else "Expert"

/-- Embedding of `determine_health_status`. -/
def determine_health_status (avg_score : ℚ) : String :=
  if avg_score ≥ 80 then "Excellent"
  else if avg_score ≥ 60 then "Good"
  else if avg_score ≥ 40 then "Fair"
  else "Needs Improvement"

/-- The executable `Rat.floor` agrees with the mathematical floor. -/
lemma ratFloor_eq (q : ℚ) : Rat.floor q = ⌊q⌋ := by
  rw [Rat.floor_def', Rat.floor_def]

/-- Rounding stays within any pair of integer bounds enclosing the
argument. -/
lemma pyRound_bounds (a b : ℤ) (q : ℚ) (ha : (a : ℚ) ≤ q) (hb : q ≤ (b : ℚ)) :
    a ≤ pyRound q ∧ pyRound q ≤ b := by
  have h1 : (⌊q⌋ : ℚ) ≤ q := Int.floor_le q
  have h2 : q < ⌊q⌋ + 1 := Int.lt_floor_add_one q
  have ha' : a ≤ ⌊q⌋ := Int.le_floor.mpr ha
  have hb' : ⌊q⌋ ≤ b := by
    have : (⌊q⌋ : ℚ) ≤ (b : ℚ) := le_trans h1 hb
    exact_mod_cast this
  simp only [pyRound, ratFloor_eq]
  split_ifs with hc1 hc2 hc3
  · exact ⟨ha', hb'⟩
  · refine ⟨le_trans ha' (by omega), ?_⟩
    have : (⌊q⌋ : ℚ) < (b : ℚ) := by linarith
    have : ⌊q⌋ < b := by exact_mod_cast this
    omega
  · exact ⟨ha', hb'⟩
  · have hr : q - ⌊q⌋ = 1/2 := le_antisymm (not_lt.mp hc2) (not_lt.mp hc1)
    refine ⟨le_trans ha' (by omega), ?_⟩
    have : (⌊q⌋ : ℚ) < (b : ℚ) := by linarith
    have : ⌊q⌋ < b := by exact_mod_cast this
    omega

/-- The mood score never drops below 10. -/
lemma mood_score_ge_10 (s : String) (c : ℚ) : 10 ≤ calculate_mood_score s c := by
  simp only [calculate_mood_score]
  exact le_max_left _ _

/-- The mood score never exceeds 100. -/
lemma mood_score_le_100 (s : String) (c : ℚ) : calculate_mood_score s c ≤ 100 := by
  simp only [calculate_mood_score]
  exact max_le (by norm_num) (min_le_left _ _)

/-- A capped proportional sub-score of a non-negative input lies in
[0, 100]. -/
lemma sub_score_bounds (x d : ℚ) (hx : 0 ≤ x) (hd : 0 < d) :
    0 ≤ min (x / d * 100) 100 ∧ min (x / d * 100) 100 ≤ 100 :=
  ⟨le_min (by positivity) (by norm_num), min_le_right _ _⟩

/-- Unfolding of `track_wellness_scores` into its four components. -/
lemma track_wellness_scores_def (sh em wg : ℚ) :
    track_wellness_scores sh em wg =
      ⟨min (sh / 8 * 100) 100, min (em / 30 * 100) 100, min (wg / 8 * 100) 100,
        pyRound ((min (sh / 8 * 100) 100 + min (em / 30 * 100) 100 +
          min (wg / 8 * 100) 100) / 3)⟩ := rfl

/-- C1: for every input string the classifier case-folds the text,
counts positive and negative keyword substring hits P and N, and
returns (POSITIVE, 0.70) when P > N, (NEGATIVE, 0.70) when N > P and
(NEUTRAL, 0.60) when P = N; on the empty string it returns
(NEUTRAL, 0.60). -/
theorem C1_sentiment_classifier (text : List Char) :
    (count_hits positive_words (text.map Char.toLower) >
        count_hits negative_words (text.map Char.toLower) →
      analyze_sentiment text = ("POSITIVE", 7/10)) ∧
    (count_hits negative_words (text.map Char.toLower) >
        count_hits positive_words (text.map Char.toLower) →
      analyze_sentiment text = ("NEGATIVE", 7/10)) ∧
    (count_hits positive_words (text.map Char.toLower) =
        count_hits negative_words (text.map Char.toLower) →
      analyze_sentiment text = ("NEUTRAL", 6/10)) ∧
    analyze_sentiment [] = ("NEUTRAL", 6/10) := by
  refine ⟨?_, ?_, ?_, ?_⟩
  · intro h
    simp only [analyze_sentiment]
    rw [if_pos h]
  · intro h
    simp only [analyze_sentiment]
    rw [if_neg (by omega), if_pos h]
  · intro h
    simp only [analyze_sentiment]
    rw [if_neg (by omega), if_neg (by omega)]
  · simp only [analyze_sentiment]
    rw [if_neg (by decide), if_neg (by decide)]

/-- Witness for C1 at the concrete text "happy": one positive hit, no
negative hit, so the classifier answers (POSITIVE, 0.70). -/
theorem C1_sentiment_classifier_witness :
    analyze_sentiment "happy".toList = ("POSITIVE", 7/10) :=
  (C1_sentiment_classifier "happy".toList).1 (by decide)

/-- C3: the wellness calculator returns sleepScore =
min(sleepHours/8*100, 100), exerciseScore = min(exerciseMinutes/30*100,
100), waterScore = min(waterGlasses/8*100, 100) and overallScore the
rounded average of the three; inputs (8,30,8) give all scores 100 and
inputs (0,0,0) give all scores 0. -/
theorem C3_wellness_formulas (sh em wg : ℚ) :
    (track_wellness_scores sh em wg).sleep_score = min (sh / 8 * 100) 100 ∧
    (track_wellness_scores sh em wg).exercise_score = min (em / 30 * 100) 100 ∧
    (track_wellness_scores sh em wg).water_score = min (wg / 8 * 100) 100 ∧
    (track_wellness_scores sh em wg).overall_score =
      pyRound (((track_wellness_scores sh em wg).sleep_score +
        (track_wellness_scores sh em wg).exercise_score +
        (track_wellness_scores sh em wg).water_score) / 3) ∧
    track_wellness_scores 8 30 8 = ⟨100, 100, 100, 100⟩ ∧
    track_wellness_scores 0 0 0 = ⟨0, 0, 0, 0⟩ := by
  refine ⟨rfl, rfl, rfl, rfl, ?_, ?_⟩ <;>
    norm_num [track_wellness_scores, pyRound, ratFloor_eq]

/-- C4: the nutrition score is min(min(count*10, 100) + 5 * healthy
keyword matches, 100), the dietary-restriction argument is a no-op,
and ["vegetables","chicken"] with "none" scores 25. -/
theorem C4_nutrition_score (ings : List (List Char)) (dr dr2 : String) :
    calculate_nutrition_score ings dr =
      min (min (ings.length * 10) 100 + 5 * ings.countP
        (fun ingredient => healthy_ingredients.any
          (fun healthy => decide (List.IsInfix healthy (ingredient.map Char.toLower)))))
        100 ∧
    calculate_nutrition_score ings dr = calculate_nutrition_score ings dr2 ∧
    calculate_nutrition_score ["vegetables".toList, "chicken".toList] "none" = 25 := by
  refine ⟨?_, rfl, by decide⟩
  simp only [calculate_nutrition_score]
  exact Nat.min_comm _ _

/-- C6: the education level depends on the activity count alone: 0 is
Beginner, 1 to 4 Explorer, 5 to 9 Learner, 10 to 19 Scholar, 20 or more
Expert; avgProgress never changes the label; in particular count 4 is
Explorer and count 5 is Learner. -/
theorem C6_education_level (n : ℕ) (p : ℚ) :
    (n = 0 → determine_education_level n p = "Beginner") ∧
    (1 ≤ n → n ≤ 4 → determine_education_level n p = "Explorer") ∧
    (5 ≤ n → n ≤ 9 → determine_education_level n p = "Learner") ∧
    (10 ≤ n → n ≤ 19 → determine_education_level n p = "Scholar") ∧
    (20 ≤ n → determine_education_level n p = "Expert") ∧
    (∀ p' : ℚ, determine_education_level n p = determine_education_level n p') ∧
    determine_education_level 4 p = "Explorer" ∧
    determine_education_level 5 p = "Learner" := by
  refine ⟨?_, ?_, ?_, ?_, ?_, fun p' => rfl, rfl, rfl⟩ <;>
  · intros
    simp only [determine_education_level]
    split_ifs <;> first | rfl | omega

/-- Witness for C6: counts 0 and 20 with an arbitrary progress value
get the Beginner and Expert labels. -/
theorem C6_education_level_witness :
    determine_education_level 0 0 = "Beginner" ∧
    determine_education_level 20 0 = "Expert" :=
  ⟨(C6_education_level 0 0).1 rfl,
   (C6_education_level 20 0).2.2.2.2.1 (by norm_num)⟩

/-- C7: the health status is Excellent from 80 up, Good from 60 up to
below 80, Fair from 40 up to below 60, and Needs Improvement below 40,
each boundary inclusive on its lower bound; status(80) is Excellent and
status(79.99) is Good. -/
theorem C7_health_status (q : ℚ) :
    (80 ≤ q → determine_health_status q = "Excellent") ∧
    (60 ≤ q → q < 80 → determine_health_status q = "Good") ∧
    (40 ≤ q → q < 60 → determine_health_status q = "Fair") ∧
    (q < 40 → determine_health_status q = "Needs Improvement") ∧
    determine_health_status 80 = "Excellent" ∧
    determine_health_status (7999/100) = "Good" := by
  refine ⟨?_, ?_, ?_, ?_, by norm_num [determine_health_status],
    by norm_num [determine_health_status]⟩ <;>
  · intros
    simp only [determine_health_status]
    split_ifs <;> first | rfl | linarith

/-- Witness for C7 at the boundary value 79.99, which lands in the
Good band. -/
theorem C7_health_status_witness :
    determine_health_status (7999/100) = "Good" :=
  (C7_health_status (7999/100)).2.1 (by norm_num) (by norm_num)

/-- C5: for a fixed sentiment label the mood score is monotonically
non-decreasing in the confidence, always lies in [10,100], and equals
clamp(base + (confidence - 0.5) * 20, 10, 100) with base 85 for
POSITIVE, 60 for NEUTRAL and 35 for NEGATIVE. -/
theorem C5_mood_score (s : String) :
    (∀ c1 c2 : ℚ, c1 ≤ c2 →
      calculate_mood_score s c1 ≤ calculate_mood_score s c2) ∧
    (∀ c : ℚ, 10 ≤ calculate_mood_score s c ∧ calculate_mood_score s c ≤ 100) ∧
    (∀ c : ℚ,
      calculate_mood_score "POSITIVE" c = max 10 (min 100 (85 + (c - 1/2) * 20)) ∧
      calculate_mood_score "NEUTRAL" c = max 10 (min 100 (60 + (c - 1/2) * 20)) ∧
      calculate_mood_score "NEGATIVE" c = max 10 (min 100 (35 + (c - 1/2) * 20))) := by
  refine ⟨fun c1 c2 h => ?_, fun c => ⟨mood_score_ge_10 s c, mood_score_le_100 s c⟩,
    fun c => ⟨?_, ?_, ?_⟩⟩
  · simp only [calculate_mood_score]
    exact max_le_max le_rfl (min_le_min le_rfl (by linarith))
  · simp [calculate_mood_score, base_scores]
  · simp [calculate_mood_score, base_scores]
  · simp [calculate_mood_score, base_scores]

/-- Witness for C5: monotonicity applied at confidences 0.6 and 0.7 for
the POSITIVE label, together with the evaluated endpoint. -/
theorem C5_mood_score_witness :
    calculate_mood_score "POSITIVE" (6/10) ≤ calculate_mood_score "POSITIVE" (7/10) ∧
    calculate_mood_score "POSITIVE" (7/10) = 89 :=
  ⟨(C5_mood_score "POSITIVE").1 (6/10) (7/10) (by norm_num),
   by norm_num [calculate_mood_score, base_scores]⟩

/-- C2 counterexample: the wellness calculator applied to a negative
sleep input yields a sleep score of -100, outside [0,100], so the claim
as stated over every input fails. -/
theorem C2_score_range_counterexample :
    (track_wellness_scores (-8) 0 0).sleep_score = -100 ∧
    ¬ (0 ≤ (track_wellness_scores (-8) 0 0).sleep_score ∧
        (track_wellness_scores (-8) 0 0).sleep_score ≤ 100) := by
  constructor <;> norm_num [track_wellness_scores]

/-- C2 amended: for non-negative wellness inputs every derived wellness
score lies in [0,100]; the mood, nutrition and waste scores lie in
[0,100] for all inputs; and every classifier confidence lies in
[0,1]. -/
theorem C2_score_ranges_amended :
    (∀ s : String, ∀ c : ℚ,
      0 ≤ calculate_mood_score s c ∧ calculate_mood_score s c ≤ 100) ∧
    (∀ sh em wg : ℚ, 0 ≤ sh → 0 ≤ em → 0 ≤ wg →
      (0 ≤ (track_wellness_scores sh em wg).sleep_score ∧
        (track_wellness_scores sh em wg).sleep_score ≤ 100) ∧
      (0 ≤ (track_wellness_scores sh em wg).exercise_score ∧
        (track_wellness_scores sh em wg).exercise_score ≤ 100) ∧
      (0 ≤ (track_wellness_scores sh em wg).water_score ∧
        (track_wellness_scores sh em wg).water_score ≤ 100) ∧
      (0 ≤ (track_wellness_scores sh em wg).overall_score ∧
        (track_wellness_scores sh em wg).overall_score ≤ 100)) ∧
    (∀ ings : List (List Char), ∀ dr : String,
      calculate_nutrition_score ings dr ≤ 100) ∧
    (∀ items : List (List Char), calculate_waste_impact_score items ≤ 100) ∧
    (∀ text : List Char,
      0 ≤ (analyze_sentiment text).2 ∧ (analyze_sentiment text).2 ≤ 1) := by
  refine ⟨fun s c => ⟨le_trans (by norm_num) (mood_score_ge_10 s c),
      mood_score_le_100 s c⟩, ?_, fun ings dr => min_le_left _ _,
    fun items => min_le_left _ _, fun text => ?_⟩
  · intro sh em wg hsh hem hwg
    have h1 := sub_score_bounds sh 8 hsh (by norm_num)
    have h2 := sub_score_bounds em 30 hem (by norm_num)
    have h3 := sub_score_bounds wg 8 hwg (by norm_num)
    rw [track_wellness_scores_def]
    refine ⟨h1, h2, h3, ?_⟩
    have := pyRound_bounds 0 100
      ((min (sh / 8 * 100) 100 + min (em / 30 * 100) 100 +
        min (wg / 8 * 100) 100) / 3)
      (by push_cast; linarith [h1.1, h2.1, h3.1])
      (by push_cast; linarith [h1.2, h2.2, h3.2])
    exact this
  · simp only [analyze_sentiment]
    split_ifs <;> norm_num

/-- Witness for C2: the amended range fact applied at the all-target
input (8,30,8), whose overall score lies in [0,100]. -/
theorem C2_score_ranges_amended_witness :
    0 ≤ (track_wellness_scores 8 30 8).overall_score ∧
    (track_wellness_scores 8 30 8).overall_score ≤ 100 :=
  (C2_score_ranges_amended.2.1 8 30 8 (by norm_num) (by norm_num)
    (by norm_num)).2.2.2

/-- C8: the wellness recommendations contain the sleep tip iff
sleepScore < 70, the exercise tip iff exerciseScore < 70, the hydration
tip iff waterScore < 70, end with exactly one closing remark chosen by
the three-way threshold on the overall score, keep the fixed order
sleep, exercise, water, closing remark, and have at most four items. -/
theorem C8_wellness_recommendations (ws : ℤ) (ss es wg : ℚ) :
    (sleep_tip ∈ generate_wellness_recommendations ws ss es wg ↔ ss < 70) ∧
    (exercise_tip ∈ generate_wellness_recommendations ws ss es wg ↔ es < 70) ∧
    (water_tip ∈ generate_wellness_recommendations ws ss es wg ↔ wg < 70) ∧
    (generate_wellness_recommendations ws ss es wg).getLast? =
      some (closing_remark ws) ∧
    ((80 ≤ ws → closing_remark ws =
        "Great job maintaining excellent wellness habits!") ∧
      (60 ≤ ws → ws < 80 → closing_remark ws =
        "You\x27re on the right track - small improvements can make a big difference") ∧
      (ws < 60 → closing_remark ws =
        "Focus on gradual improvements in sleep, exercise, and hydration")) ∧
    (1 ≤ (generate_wellness_recommendations ws ss es wg).length ∧
      (generate_wellness_recommendations ws ss es wg).length ≤ 4) ∧
    generate_wellness_recommendations ws ss es wg =
      (if ss < 70 then [sleep_tip] else []) ++
      (if es < 70 then [exercise_tip] else []) ++
      (if wg < 70 then [water_tip] else []) ++
      [closing_remark ws] := by
  refine ⟨?_, ?_, ?_, ?_, ⟨?_, ?_, ?_⟩, ⟨?_, ?_⟩, rfl⟩
  · simp only [generate_wellness_recommendations, closing_remark]
    split_ifs <;>
      simp_all [sleep_tip, exercise_tip, water_tip]
  · simp only [generate_wellness_recommendations, closing_remark]
    split_ifs <;>
      simp_all [sleep_tip, exercise_tip, water_tip]
  · simp only [generate_wellness_recommendations, closing_remark]
    split_ifs <;>
      simp_all [sleep_tip, exercise_tip, water_tip]
  · simp only [generate_wellness_recommendations]
    rw [List.append_assoc, List.append_assoc]
    simp [List.getLast?_append]
  · intro h
    simp only [closing_remark]
    rw [if_pos (by omega)]
  · intro h1 h2
    simp only [closing_remark]
    rw [if_neg (by omega), if_pos (by omega)]
  · intro h
    simp only [closing_remark]
    rw [if_neg (by omega), if_neg (by omega)]
  · simp only [generate_wellness_recommendations]
    split_ifs <;> simp
  · simp only [generate_wellness_recommendations]
    split_ifs <;> simp

/-- Witness for C8 at overall score 85 with all sub-scores 90: only the
excellent closing remark is produced. -/
theorem C8_wellness_recommendations_witness :
    closing_remark 85 = "Great job maintaining excellent wellness habits!" ∧
    (sleep_tip ∈ generate_wellness_recommendations 85 90 90 90 ↔ (90:ℚ) < 70) :=
  ⟨(C8_wellness_recommendations 85 90 90 90).2.2.2.2.1.1 (by norm_num),
   (C8_wellness_recommendations 85 90 90 90).1⟩

/-- C9: the mental-health recommendations are a fixed table with three
strings for POSITIVE, four for NEGATIVE, four for NEUTRAL, any other
label falls back to the NEUTRAL list, and the result is never empty. -/
theorem C9_mental_health_recommendations (s : String) (c : ℚ) :
    generate_mental_health_recommendations "POSITIVE" c = positive_recs ∧
    positive_recs.length = 3 ∧
    generate_mental_health_recommendations "NEGATIVE" c = negative_recs ∧
    negative_recs.length = 4 ∧
    generate_mental_health_recommendations "NEUTRAL" c = neutral_recs ∧
    neutral_recs.length = 4 ∧
    (s ≠ "POSITIVE" → s ≠ "NEGATIVE" → s ≠ "NEUTRAL" →
      generate_mental_health_recommendations s c = neutral_recs) ∧
    generate_mental_health_recommendations s c ≠ [] := by
  refine ⟨rfl, rfl, rfl, rfl, rfl, rfl, ?_, ?_⟩
  · intro h1 h2 h3
    simp only [generate_mental_health_recommendations, mh_lookup]
    rw [if_neg h1, if_neg h2, if_neg h3]
    rfl
  · simp only [generate_mental_health_recommendations, mh_lookup]
    split_ifs <;>
      simp [positive_recs, negative_recs, neutral_recs]

/-- Witness for C9: the unknown label SURPRISED falls back to the
NEUTRAL list, which is non-empty. -/
theorem C9_mental_health_recommendations_witness :
    generate_mental_health_recommendations "SURPRISED" 0 = neutral_recs ∧
    generate_mental_health_recommendations "SURPRISED" 0 ≠ [] :=
  ⟨(C9_mental_health_recommendations "SURPRISED" 0).2.2.2.2.2.2.1
      (by decide) (by decide) (by decide),
   (C9_mental_health_recommendations "SURPRISED" 0).2.2.2.2.2.2.2⟩

/-- C10: composing the classifier with the mood-score calculator can
only produce 89 (on POSITIVE texts), 62 (on NEUTRAL texts) or 39 (on
NEGATIVE texts), because the classifier only emits confidences 0.70 and
0.60. -/
theorem C10_classifier_mood_compose (text : List Char) :
    ((analyze_sentiment text).1 = "POSITIVE" ∧
      calculate_mood_score (analyze_sentiment text).1 (analyze_sentiment text).2 = 89) ∨
    ((analyze_sentiment text).1 = "NEUTRAL" ∧
      calculate_mood_score (analyze_sentiment text).1 (analyze_sentiment text).2 = 62) ∨
    ((analyze_sentiment text).1 = "NEGATIVE" ∧
      calculate_mood_score (analyze_sentiment text).1 (analyze_sentiment text).2 = 39) := by
  simp only [analyze_sentiment]
  split_ifs
  · exact Or.inl ⟨rfl, by norm_num [calculate_mood_score, base_scores]⟩
  · exact Or.inr (Or.inr ⟨rfl, by
      norm_num [calculate_mood_score,
        show base_scores "NEGATIVE" = 35 from by decide]⟩)
  · exact Or.inr (Or.inl ⟨rfl, by
      norm_num [calculate_mood_score,
        show base_scores "NEUTRAL" = 60 from by decide]⟩)

end EmpowerHub
